import Mathlib

/-!
Verification of the `notebook_simplification` GAN batching utilities.

The development shallowly embeds `gan_utils.py` (class `GanUtils`) and the
`discretize_predictions` function of `nbutils.py`.  The process-wide numpy
random source is modelled as a stream of standard-normal draws together with
a stream of raw natural-number draws, sharing a single cursor: `randn`
consumes one stream position per generated entry, and integer sampling
(`choice`) consumes one position per drawn index.  Fallible numpy calls are
embedded as `Except`-valued functions; float labels `0.0` and `1.0` are
represented exactly by the rationals `0` and `1`.
-/

/-- Errors a call may surface: the numpy `ValueError`s and `IndexError`
actually reachable in this code, plus the two error kinds the documentation
names (`InvalidConfiguration`, `InvalidArgument`), so that statements about
them can be expressed. -/
inductive PyError where
  | negativeDimensions
  | emptyPopulation
  | indexError
  | invalidConfiguration
  | invalidArgument

/-- The process-wide random source: a stream of standard-normal draws, a
stream of raw natural draws used for integer sampling, and one shared
cursor `pos` advancing over both. -/
structure RandomSource where
  normals : Nat → Rat
  raws : Nat → Nat
  pos : Nat

/-- The matrix produced by `np.random.randn(n, m)`: entry `(i, j)` is the
normal draw at stream position `pos + i * m + j`. -/
def randnMatrix (src : RandomSource) (n m : Nat) : List (List Rat) :=
  (List.range n).map fun i => (List.range m).map fun j => src.normals (src.pos + i * m + j)

/-- The indices produced by `np.random.choice(k, n)`: draw `i` is the raw
draw at stream position `pos + i`, reduced into `[0, k)`. -/
def choiceDraws (src : RandomSource) (k n : Nat) : List Nat :=
  (List.range n).map fun i => src.raws (src.pos + i) % k

/-- Embedding of `np.random.randn(n, m)`: an `n × m` matrix of draws from
the normal stream, advancing the shared cursor by `n * m`; a negative
dimension raises `ValueError`. -/
def np_randn (n m : Int) (src : RandomSource) :
    Except PyError (List (List Rat) × RandomSource) :=
  if n < 0 ∨ m < 0 then .error .negativeDimensions
  else .ok (randnMatrix src n.toNat m.toNat,
    { src with pos := src.pos + n.toNat * m.toNat })

/-- Embedding of `np.random.choice(k, n)` (sampling with replacement,
discrete uniform over `[0, k)`): `n` index draws, advancing the shared
cursor by `n`; a negative size raises `ValueError`, and a non-positive
population raises `ValueError` unless no samples are taken. -/
def np_choice (k n : Int) (src : RandomSource) :
    Except PyError (List Nat × RandomSource) :=
  if n < 0 then .error .negativeDimensions
  else if k ≤ 0 ∧ n ≠ 0 then .error .emptyPopulation
  else .ok (choiceDraws src k.toNat n.toNat, { src with pos := src.pos + n.toNat })

/-- Embedding of numpy fancy indexing `dataset[indexes]`: the elements of
`dataset` at the given positions, `none` (an `IndexError`) if any position
is out of range. -/
def fancyIndex (dataset : List α) : List Nat → Option (List α)
  | [] => some []
  | i :: rest =>
    match dataset[i]?, fancyIndex dataset rest with
    | some a, some l => some (a :: l)
    | _, _ => none

/-- The `GanUtils` class of `gan_utils.py`.  `dataset` holds samples of an
arbitrary type `α`; `generator` is the external model's `predict`, mapping
a batch of latent vectors to a batch of samples. -/
structure GanUtils (α : Type) where
  latent_length : Int
  batch_size : Int
  dataset : List α
  dataset_size : Nat
  generator : List (List Rat) → List α

/-- Embedding of `GanUtils.__init__`: stores the four arguments and sets
`dataset_size = len(dataset)`. -/
def GanUtils.init (latent_length batch_size : Int) (dataset : List α)
    (generator : List (List Rat) → List α) : GanUtils α :=
  { latent_length := latent_length, batch_size := batch_size, dataset := dataset,
    dataset_size := dataset.length, generator := generator }

/-- Embedding of `GanUtils.__init__` as a fallible call: the constructor
body contains no validation and no raise statement, so it always returns
the constructed object. -/
def GanUtils.initE (latent_length batch_size : Int) (dataset : List α)
    (generator : List (List Rat) → List α) : Except PyError (GanUtils α) :=
  .ok (GanUtils.init latent_length batch_size dataset generator)

/-- Embedding of `GanUtils.get_latent_examples`:
`np.random.randn(n, self.latent_length)`. -/
def GanUtils.get_latent_examples (u : GanUtils α) (n : Int) (src : RandomSource) :
    Except PyError (List (List Rat) × RandomSource) :=
  np_randn n u.latent_length src

/-- Embedding of `GanUtils.get_latent_dataset`: an omitted argument
(`n=None`) defaults to `self.batch_size`; labels are `np.ones((n,))`. -/
def GanUtils.get_latent_dataset (u : GanUtils α) (nOpt : Option Int) (src : RandomSource) :
    Except PyError ((List (List Rat) × List Rat) × RandomSource) := do
  let n := nOpt.getD u.batch_size
  let (x, src') ← u.get_latent_examples n src
  return ((x, List.replicate n.toNat 1), src')

/-- Embedding of `GanUtils.get_fake_data`: latent examples are passed
through `self.generator.predict`; labels are `np.zeros((len(x),))`. -/
def GanUtils.get_fake_data (u : GanUtils α) (n : Int) (src : RandomSource) :
    Except PyError ((List α × List Rat) × RandomSource) := do
  let (latent_examples, src') ← u.get_latent_examples n src
  let x := u.generator latent_examples
  return ((x, List.replicate x.length 0), src')

/-- Embedding of `GanUtils.get_sampled_data`:
`indexes = np.random.choice(self.dataset_size, n)`, `x = self.dataset[indexes]`,
labels are `np.ones((len(x),))`. -/
def GanUtils.get_sampled_data (u : GanUtils α) (n : Int) (src : RandomSource) :
    Except PyError ((List α × List Rat) × RandomSource) := do
  let (indexes, src') ← np_choice (u.dataset_size : Int) n src
  match fancyIndex u.dataset indexes with
  | none => .error .indexError
  | some x => return ((x, List.replicate x.length 1), src')

/-- Embedding of `GanUtils.get_combined_dataset`: the fake batch is
computed first, then the real batch; samples and labels are concatenated
real-segment first. -/
def GanUtils.get_combined_dataset (u : GanUtils α) (n_fake n_real : Int)
    (src : RandomSource) :
    Except PyError ((List α × List Rat) × RandomSource) := do
  let ((x_fake, y_fake), src') ← u.get_fake_data n_fake src
  let ((x_real, y_real), src'') ← u.get_sampled_data n_real src'
  return ((x_real ++ x_fake, y_real ++ y_fake), src'')

/-- Embedding of `GanUtils.get_equal_combined_dataset`:
`n_fake = n_real = int(self.batch_size / 2)` (Python `int(x / 2)` truncates
toward zero, which is `Int.tdiv`). -/
def GanUtils.get_equal_combined_dataset (u : GanUtils α) (src : RandomSource) :
    Except PyError ((List α × List Rat) × RandomSource) :=
  let n_fake := Int.tdiv u.batch_size 2
  let n_real := Int.tdiv u.batch_size 2
  u.get_combined_dataset n_fake n_real src

/-- Largest value of a list of rationals, `none` on the empty list; helper
for the embedding of `np.argmax`. -/
def listMax : List Rat → Option Rat
  | [] => none
  | v :: rest =>
    some (match listMax rest with
      | none => v
      | some m => max v m)

/-- Embedding of `np.argmax` on one row: the index of the first maximal
entry (ties resolved to the smallest index); an empty row raises. -/
def np_argmax_row : List Rat → Option Nat
  | [] => none
  | v :: rest =>
    match listMax rest with
    | none => some 0
    | some m => if m ≤ v then some 0 else (np_argmax_row rest).map (· + 1)

/-- Embedding of `discretize_predictions` of `nbutils.py`:
`np.argmax(predictions, axis=1)`. -/
def discretize_predictions (predictions : List (List Rat)) : Option (List Nat) :=
  predictions.mapM np_argmax_row

/-- The statement that `j` is the index of the first maximum of `row`:
`j` is in range, no entry exceeds `row[j]`, and every entry before `j` is
strictly below `row[j]`. -/
def isFirstArgmax (row : List Rat) (j : Nat) : Prop :=
  j < row.length ∧
  (∀ k, k < row.length → row.getD k 0 ≤ row.getD j 0) ∧
  (∀ k, k < j → row.getD k 0 < row.getD j 0)

/-- A concrete random source whose normal draws are all `0` and whose raw
draws enumerate the naturals. -/
def zeroSrc : RandomSource :=
  { normals := fun _ => 0, raws := fun i => i, pos := 0 }

/-- The concrete scenario of the specification: `latent_length = 2`,
`batch_size = 4`, a dataset of four one-dimensional samples, identity
generator. -/
def sampleUtils : GanUtils (List Rat) :=
  GanUtils.init 2 4 [[10], [20], [30], [40]] id

/-- The same scenario with the odd batch size `11`. -/
def sampleUtils11 : GanUtils (List Rat) :=
  GanUtils.init 2 11 [[10], [20], [30], [40]] id

theorem randnMatrix_length (src : RandomSource) (n m : Nat) :
    (randnMatrix src n m).length = n := by
  simp [randnMatrix]

theorem randnMatrix_rows (src : RandomSource) (n m : Nat) :
    ∀ row ∈ randnMatrix src n m, row.length = m := by
  intro row hrow
  simp only [randnMatrix, List.mem_map, List.mem_range] at hrow
  obtain ⟨i, -, rfl⟩ := hrow
  simp

theorem choiceDraws_length (src : RandomSource) (k n : Nat) :
    (choiceDraws src k n).length = n := by
  simp [choiceDraws]

theorem choiceDraws_lt (src : RandomSource) (k n : Nat) (hk : 0 < k) :
    ∀ i ∈ choiceDraws src k n, i < k := by
  intro i hi
  simp only [choiceDraws, List.mem_map, List.mem_range] at hi
  obtain ⟨j, -, rfl⟩ := hi
  exact Nat.mod_lt _ hk

theorem np_randn_eq (n m : Int) (src : RandomSource) (hn : 0 ≤ n) (hm : 0 ≤ m) :
    np_randn n m src = .ok (randnMatrix src n.toNat m.toNat,
      { src with pos := src.pos + n.toNat * m.toNat }) := by
  unfold np_randn
  rw [if_neg]
  push_neg
  exact ⟨hn, hm⟩

theorem np_choice_eq (k n : Int) (src : RandomSource) (hn : 0 ≤ n) (hk : 0 < k) :
    np_choice k n src = .ok (choiceDraws src k.toNat n.toNat,
      { src with pos := src.pos + n.toNat }) := by
  have h1 : ¬ n < 0 := by omega
  have h2 : ¬ (k ≤ 0 ∧ n ≠ 0) := by omega
  simp only [np_choice, if_neg h1, if_neg h2]

theorem fancyIndex_ok (ds : List α) :
    ∀ idxs : List Nat, (∀ i ∈ idxs, i < ds.length) →
      ∃ l, fancyIndex ds idxs = some l ∧ l.length = idxs.length ∧ ∀ a ∈ l, a ∈ ds := by
  intro idxs
  induction idxs with
  | nil => exact fun _ => ⟨[], rfl, rfl, by simp⟩
  | cons i rest ih =>
    intro h
    have hi : i < ds.length := h i (by simp)
    obtain ⟨l, hl, hlen, hmem⟩ := ih fun j hj => h j (by simp [hj])
    refine ⟨ds[i] :: l, ?_, by simp [hlen], ?_⟩
    · simp only [fancyIndex, List.getElem?_eq_getElem hi, hl]
    · intro a ha
      rcases List.mem_cons.mp ha with h1 | h2
      · exact h1 ▸ List.getElem_mem hi
      · exact hmem a h2

theorem get_fake_data_eq (u : GanUtils α) (n : Int) (src : RandomSource)
    (hn : 0 ≤ n) (hll : 0 ≤ u.latent_length) :
    u.get_fake_data n src = .ok
      ((u.generator (randnMatrix src n.toNat u.latent_length.toNat),
        List.replicate (u.generator (randnMatrix src n.toNat u.latent_length.toNat)).length 0),
       { src with pos := src.pos + n.toNat * u.latent_length.toNat }) := by
  unfold GanUtils.get_fake_data GanUtils.get_latent_examples
  rw [np_randn_eq _ _ _ hn hll]
  rfl

theorem get_sampled_data_eq (u : GanUtils α) (n : Int) (src : RandomSource)
    (hn : 0 ≤ n) (hsz : u.dataset_size = u.dataset.length) (hne : u.dataset ≠ []) :
    ∃ x, fancyIndex u.dataset (choiceDraws src u.dataset_size n.toNat) = some x ∧
      x.length = n.toNat ∧ (∀ a ∈ x, a ∈ u.dataset) ∧
      u.get_sampled_data n src = .ok ((x, List.replicate n.toNat 1),
        { src with pos := src.pos + n.toNat }) := by
  have hpos : 0 < u.dataset_size := by
    rw [hsz]
    exact List.length_pos.mpr hne
  have hk : 0 < (u.dataset_size : Int) := by exact_mod_cast hpos
  obtain ⟨x, hx, hlen, hmem⟩ :=
    fancyIndex_ok u.dataset (choiceDraws src u.dataset_size n.toNat)
      (fun i hi => hsz ▸ choiceDraws_lt src u.dataset_size n.toNat hpos i hi)
  have hxlen : x.length = n.toNat := by rw [hlen, choiceDraws_length]
  refine ⟨x, hx, hxlen, hmem, ?_⟩
  unfold GanUtils.get_sampled_data
  rw [np_choice_eq _ _ _ hn hk]
  simp only [Int.toNat_natCast] at *
  simp only [Bind.bind, Except.bind, Pure.pure, Except.pure, hx, hxlen]

theorem get_combined_dataset_eq (u : GanUtils α) (n_fake n_real : Int) (src : RandomSource)
    (hf : 0 ≤ n_fake) (hr : 0 ≤ n_real) (hll : 0 ≤ u.latent_length)
    (hsz : u.dataset_size = u.dataset.length) (hne : u.dataset ≠ []) :
    ∃ x_real,
      fancyIndex u.dataset
        (choiceDraws { src with pos := src.pos + n_fake.toNat * u.latent_length.toNat }
          u.dataset_size n_real.toNat) = some x_real ∧
      x_real.length = n_real.toNat ∧ (∀ a ∈ x_real, a ∈ u.dataset) ∧
      u.get_combined_dataset n_fake n_real src = .ok
        ((x_real ++ u.generator (randnMatrix src n_fake.toNat u.latent_length.toNat),
          List.replicate n_real.toNat 1 ++
            List.replicate
              (u.generator (randnMatrix src n_fake.toNat u.latent_length.toNat)).length 0),
         { src with pos := src.pos + n_fake.toNat * u.latent_length.toNat + n_real.toNat }) := by
  obtain ⟨x, hx, hlen, hmem, heq⟩ :=
    get_sampled_data_eq u n_real
      { src with pos := src.pos + n_fake.toNat * u.latent_length.toNat } hr hsz hne
  refine ⟨x, hx, hlen, hmem, ?_⟩
  unfold GanUtils.get_combined_dataset
  rw [get_fake_data_eq u n_fake src hf hll]
  simp only [Bind.bind, Except.bind, Pure.pure, Except.pure, heq]

theorem latent_dataset_len_eq (u : GanUtils α) (nOpt : Option Int) (src : RandomSource)
    (x : List (List Rat)) (y : List Rat) (s : RandomSource)
    (h : u.get_latent_dataset nOpt src = .ok ((x, y), s)) : x.length = y.length := by
  unfold GanUtils.get_latent_dataset GanUtils.get_latent_examples np_randn at h
  by_cases hc : nOpt.getD u.batch_size < 0 ∨ u.latent_length < 0
  · simp only [if_pos hc, Bind.bind, Except.bind] at h
    exact Except.noConfusion h
  · simp only [if_neg hc, Bind.bind, Except.bind, Pure.pure, Except.pure,
      Except.ok.injEq, Prod.mk.injEq] at h
    obtain ⟨⟨hx, hy⟩, -⟩ := h
    rw [← hx, ← hy, randnMatrix_length, List.length_replicate]

theorem fake_data_len_eq (u : GanUtils α) (n : Int) (src : RandomSource)
    (x : List α) (y : List Rat) (s : RandomSource)
    (h : u.get_fake_data n src = .ok ((x, y), s)) : x.length = y.length := by
  unfold GanUtils.get_fake_data GanUtils.get_latent_examples np_randn at h
  by_cases hc : n < 0 ∨ u.latent_length < 0
  · simp only [if_pos hc, Bind.bind, Except.bind] at h
    exact Except.noConfusion h
  · simp only [if_neg hc, Bind.bind, Except.bind, Pure.pure, Except.pure,
      Except.ok.injEq, Prod.mk.injEq] at h
    obtain ⟨⟨hx, hy⟩, -⟩ := h
    rw [← hx, ← hy, List.length_replicate]

theorem sampled_data_len_eq (u : GanUtils α) (n : Int) (src : RandomSource)
    (x : List α) (y : List Rat) (s : RandomSource)
    (h : u.get_sampled_data n src = .ok ((x, y), s)) : x.length = y.length := by
  unfold GanUtils.get_sampled_data np_choice at h
  by_cases h1 : n < 0
  · simp only [if_pos h1, Bind.bind, Except.bind] at h
    exact Except.noConfusion h
  · by_cases h2 : (u.dataset_size : Int) ≤ 0 ∧ n ≠ 0
    · simp only [if_neg h1, if_pos h2, Bind.bind, Except.bind] at h
      exact Except.noConfusion h
    · simp only [if_neg h1, if_neg h2, Bind.bind, Except.bind] at h
      rcases hfi : fancyIndex u.dataset
          (choiceDraws src (u.dataset_size : Int).toNat n.toNat) with - | l
      · rw [hfi] at h
        simp at h
      · rw [hfi] at h
        simp only [Pure.pure, Except.pure, Except.ok.injEq, Prod.mk.injEq] at h
        obtain ⟨⟨hx, hy⟩, -⟩ := h
        rw [← hx, ← hy, List.length_replicate]

theorem combined_len_eq (u : GanUtils α) (n_fake n_real : Int) (src : RandomSource)
    (x : List α) (y : List Rat) (s : RandomSource)
    (h : u.get_combined_dataset n_fake n_real src = .ok ((x, y), s)) :
    x.length = y.length := by
  unfold GanUtils.get_combined_dataset at h
  rcases hf : u.get_fake_data n_fake src with e | p
  · rw [hf] at h
    exact Except.noConfusion h
  · obtain ⟨⟨xf, yf⟩, s1⟩ := p
    rw [hf] at h
    simp only [Bind.bind, Except.bind] at h
    rcases hs : u.get_sampled_data n_real s1 with e | q
    · rw [hs] at h
      exact Except.noConfusion h
    · obtain ⟨⟨xr, yr⟩, s2⟩ := q
      rw [hs] at h
      simp only [Bind.bind, Except.bind, Pure.pure, Except.pure,
        Except.ok.injEq, Prod.mk.injEq] at h
      obtain ⟨⟨hx, hy⟩, -⟩ := h
      rw [← hx, ← hy, List.length_append, List.length_append,
        fake_data_len_eq u n_fake src xf yf s1 hf,
        sampled_data_len_eq u n_real s1 xr yr s2 hs]

theorem listMax_spec (v : Rat) (rest : List Rat) :
    ∃ M, listMax (v :: rest) = some M ∧ (∀ a ∈ v :: rest, a ≤ M) ∧ M ∈ v :: rest := by
  induction rest generalizing v with
  | nil => exact ⟨v, rfl, by simp, by simp⟩
  | cons w t ih =>
    obtain ⟨M, hM, hle, hmem⟩ := ih w
    refine ⟨max v M, ?_, ?_, ?_⟩
    · have hunf : listMax (v :: w :: t) =
          some (match listMax (w :: t) with | none => v | some m => max v m) := rfl
      rw [hunf, hM]
    · intro a ha
      rcases List.mem_cons.mp ha with h1 | h2
      · exact h1 ▸ le_max_left v M
      · exact le_trans (hle a h2) (le_max_right v M)
    · rcases max_choice v M with h | h
      · rw [h]
        exact List.mem_cons_self v (w :: t)
      · rw [h]
        exact List.mem_cons_of_mem v hmem

theorem getD_le_of_mem_le {l : List Rat} {M : Rat} (hle : ∀ a ∈ l, a ≤ M)
    {k : Nat} (hk : k < l.length) : l.getD k 0 ≤ M := by
  rw [List.getD_eq_getElem l 0 hk]
  exact hle _ (List.getElem_mem hk)

theorem np_argmax_row_spec :
    ∀ row : List Rat, row ≠ [] → ∃ j, np_argmax_row row = some j ∧ isFirstArgmax row j := by
  intro row
  induction row with
  | nil => exact fun h => absurd rfl h
  | cons v rest ih =>
    intro _
    cases rest with
    | nil =>
      refine ⟨0, by simp [np_argmax_row, listMax], ⟨by simp, ?_, ?_⟩⟩
      · intro k hk
        simp only [List.length_singleton, Nat.lt_one_iff] at hk
        exact hk ▸ le_refl _
      · intro k hk
        exact absurd hk (Nat.not_lt_zero k)
    | cons w t =>
      obtain ⟨M, hM, hle, hmem⟩ := listMax_spec w t
      by_cases hcmp : M ≤ v
      · refine ⟨0, by simp [np_argmax_row, hM, hcmp], ⟨by simp, ?_, ?_⟩⟩
        · intro k hk
          cases k with
          | zero => exact le_refl _
          | succ k =>
            rw [List.getD_cons_succ, List.getD_cons_zero]
            have hk' : k < (w :: t).length := by
              simpa [Nat.succ_lt_succ_iff] using hk
            exact le_trans (getD_le_of_mem_le hle hk') hcmp
        · intro k hk
          exact absurd hk (Nat.not_lt_zero k)
      · push_neg at hcmp
        obtain ⟨j, hj, hjlt, hmax, hfirst⟩ := ih (by simp)
        obtain ⟨kM, hkM, hgetM⟩ := List.mem_iff_getElem.mp hmem
        have hMj : M ≤ (w :: t).getD j 0 := by
          rw [← hgetM, ← List.getD_eq_getElem (w :: t) 0 hkM]
          exact hmax kM hkM
        have hvj : v < (w :: t).getD j 0 := lt_of_lt_of_le hcmp hMj
        refine ⟨j + 1, ?_, ⟨by simpa [Nat.succ_lt_succ_iff] using hjlt, ?_, ?_⟩⟩
        · have hunf : np_argmax_row (v :: w :: t) =
              (match listMax (w :: t) with
                | none => some 0
                | some m => if m ≤ v then some 0
                    else (np_argmax_row (w :: t)).map (· + 1)) := rfl
          rw [hunf, hM]
          show (if M ≤ v then some 0
            else (np_argmax_row (w :: t)).map (· + 1)) = some (j + 1)
          rw [if_neg (not_le.mpr hcmp), hj]
          rfl
        · intro k hk
          cases k with
          | zero =>
            rw [List.getD_cons_zero, List.getD_cons_succ]
            exact le_of_lt hvj
          | succ k =>
            rw [List.getD_cons_succ, List.getD_cons_succ]
            have hk' : k < (w :: t).length := by
              simpa [Nat.succ_lt_succ_iff] using hk
            exact hmax k hk'
        · intro k hk
          cases k with
          | zero =>
            rw [List.getD_cons_zero, List.getD_cons_succ]
            exact hvj
          | succ k =>
            rw [List.getD_cons_succ, List.getD_cons_succ]
            exact hfirst k (Nat.succ_lt_succ_iff.mp hk)

theorem discretize_spec_aux :
    ∀ preds : List (List Rat), (∀ row ∈ preds, row ≠ []) →
      ∃ out, preds.mapM np_argmax_row = some out ∧ out.length = preds.length ∧
        ∀ i, i < preds.length → isFirstArgmax (preds.getD i []) (out.getD i 0) := by
  intro preds
  induction preds with
  | nil => exact fun _ => ⟨[], rfl, rfl, fun i hi => absurd hi (Nat.not_lt_zero i)⟩
  | cons p rest ih =>
    intro h
    obtain ⟨j, hj, hfa⟩ := np_argmax_row_spec p (h p (by simp))
    obtain ⟨out, hout, hlen, hpt⟩ := ih fun r hr => h r (by simp [hr])
    refine ⟨j :: out, ?_, by simp [hlen], ?_⟩
    · rw [List.mapM_cons, hj, hout]
      rfl
    · intro i hi
      cases i with
      | zero => simpa using hfa
      | succ i =>
        rw [List.getD_cons_succ, List.getD_cons_succ]
        exact hpt i (Nat.succ_lt_succ_iff.mp hi)

/-- C1: for every `n_fake > 0` and `n_real > 0`, on a `BatchAssembler` whose
construction-contract preconditions hold (non-negative latent length,
`dataset_size = len(dataset)`, non-empty dataset), `combinedBatch` returns a
pair whose samples are the real segment first followed by the fake segment,
whose total length is `n_real` plus the generator's actual output count, and
whose first `n_real` labels are exactly `1.0` and remaining labels exactly
`0.0`. -/
theorem C1_combined_batch (u : GanUtils α) (n_fake n_real : Int) (src : RandomSource)
    (hf : 0 < n_fake) (hr : 0 < n_real) (hll : 0 ≤ u.latent_length)
    (hsz : u.dataset_size = u.dataset.length) (hne : u.dataset ≠ []) :
    ∃ latent x_fake x_real src',
      latent.length = n_fake.toNat ∧ x_fake = u.generator latent ∧
      x_real.length = n_real.toNat ∧ (∀ a ∈ x_real, a ∈ u.dataset) ∧
      u.get_combined_dataset n_fake n_real src = .ok
        ((x_real ++ x_fake,
          List.replicate n_real.toNat 1 ++ List.replicate x_fake.length 0), src') ∧
      (x_real ++ x_fake).length = n_real.toNat + x_fake.length := by
  obtain ⟨x_real, hx, hlen, hmem, heq⟩ :=
    get_combined_dataset_eq u n_fake n_real src (le_of_lt hf) (le_of_lt hr) hll hsz hne
  refine ⟨randnMatrix src n_fake.toNat u.latent_length.toNat,
    u.generator (randnMatrix src n_fake.toNat u.latent_length.toNat), x_real, _,
    randnMatrix_length _ _ _, rfl, hlen, hmem, heq, ?_⟩
  rw [List.length_append, hlen]

/-- C2: `equalCombinedBatch` calls `combinedBatch` with
`n_fake = n_real = int(batch_size / 2)`; for a generator preserving batch
size the returned batch has total length `2 * (batch_size / 2)` (truncating
division), which is one less than `batch_size` when `batch_size` is odd. -/
theorem C2_equal_combined_batch (u : GanUtils α) (src : RandomSource)
    (hb : 0 < u.batch_size) (hll : 0 ≤ u.latent_length)
    (hsz : u.dataset_size = u.dataset.length) (hne : u.dataset ≠ [])
    (hgen : ∀ l, (u.generator l).length = l.length) :
    u.get_equal_combined_dataset src =
      u.get_combined_dataset (Int.tdiv u.batch_size 2) (Int.tdiv u.batch_size 2) src ∧
    ∃ x y src', u.get_equal_combined_dataset src = .ok ((x, y), src') ∧
      x.length = 2 * (Int.tdiv u.batch_size 2).toNat := by
  have hq : 0 ≤ Int.tdiv u.batch_size 2 := Int.tdiv_nonneg (le_of_lt hb) (by decide)
  obtain ⟨x_real, hx, hlen, hmem, heq⟩ :=
    get_combined_dataset_eq u (Int.tdiv u.batch_size 2) (Int.tdiv u.batch_size 2)
      src hq hq hll hsz hne
  refine ⟨rfl, _, _, _, heq, ?_⟩
  rw [List.length_append, hlen, hgen, randnMatrix_length]
  omega

/-- C5: for every `n > 0` on a `BatchAssembler` with a non-empty dataset,
`realBatch(n)` draws `n` indices uniformly from `[0, dataset_size)` (with
replacement), every returned sample is an element of the dataset, and the
labels are all exactly `1.0` with length `n`. -/
theorem C5_real_batch (u : GanUtils α) (n : Int) (src : RandomSource) (hn : 0 < n)
    (hsz : u.dataset_size = u.dataset.length) (hne : u.dataset ≠ []) :
    (∀ i ∈ choiceDraws src u.dataset_size n.toNat, i < u.dataset_size) ∧
    ∃ x src', fancyIndex u.dataset (choiceDraws src u.dataset_size n.toNat) = some x ∧
      u.get_sampled_data n src = .ok ((x, List.replicate n.toNat 1), src') ∧
      x.length = n.toNat ∧ ∀ a ∈ x, a ∈ u.dataset := by
  have hpos : 0 < u.dataset_size := by
    rw [hsz]
    exact List.length_pos.mpr hne
  obtain ⟨x, hx, hlen, hmem, heq⟩ := get_sampled_data_eq u n src (le_of_lt hn) hsz hne
  exact ⟨choiceDraws_lt src _ _ hpos, x, _, hx, heq, hlen, hmem⟩

/-- C6: for every `n > 0`, `fakeBatch(n)` samples `n` latent vectors, passes
them through the generator, and returns the generated samples together with
labels that are all exactly `0.0` and whose length equals the generator's
actual output count. -/
theorem C6_fake_batch (u : GanUtils α) (n : Int) (src : RandomSource)
    (hn : 0 < n) (hll : 0 ≤ u.latent_length) :
    ∃ latent src',
      u.get_latent_examples n src = .ok (latent, src') ∧ latent.length = n.toNat ∧
      u.get_fake_data n src = .ok
        ((u.generator latent, List.replicate (u.generator latent).length 0), src') :=
  ⟨randnMatrix src n.toNat u.latent_length.toNat, _,
    np_randn_eq n u.latent_length src (le_of_lt hn) hll,
    randnMatrix_length _ _ _,
    get_fake_data_eq u n src (le_of_lt hn) hll⟩

/-- C7: for every `n > 0`, `sampleLatentVectors(n)` returns an array of
shape `(n, latent_length)`; `latentBatch(n)` returns that array with labels
all exactly `1.0` of length `n`; and `latentBatch()` without an argument
uses `n = batch_size`. -/
theorem C7_latent_shapes (u : GanUtils α) (n : Int) (src : RandomSource)
    (hn : 0 < n) (hll : 0 ≤ u.latent_length) :
    (∃ x src', u.get_latent_examples n src = .ok (x, src') ∧
      x.length = n.toNat ∧ ∀ row ∈ x, row.length = u.latent_length.toNat) ∧
    (∃ x src', u.get_latent_dataset (some n) src =
      .ok ((x, List.replicate n.toNat 1), src')) ∧
    u.get_latent_dataset none src = u.get_latent_dataset (some u.batch_size) src := by
  refine ⟨⟨randnMatrix src n.toNat u.latent_length.toNat, _,
      np_randn_eq n u.latent_length src (le_of_lt hn) hll,
      randnMatrix_length _ _ _, randnMatrix_rows _ _ _⟩, ?_, rfl⟩
  refine ⟨randnMatrix src n.toNat u.latent_length.toNat,
    { src with pos := src.pos + n.toNat * u.latent_length.toNat }, ?_⟩
  unfold GanUtils.get_latent_dataset GanUtils.get_latent_examples
  simp only [Option.getD_some]
  rw [np_randn_eq n u.latent_length src (le_of_lt hn) hll]
  rfl

/-- C8: every batch-producing operation of the class (`latentBatch`,
`fakeBatch`, `realBatch`, `combinedBatch`, `equalCombinedBatch`) returns,
whenever it returns at all, a pair with `len(samples) = len(labels)`. -/
theorem C8_batch_lengths (α : Type) :
    (∀ (u : GanUtils α) nOpt src x y s,
      u.get_latent_dataset nOpt src = .ok ((x, y), s) → x.length = y.length) ∧
    (∀ (u : GanUtils α) n src x y s,
      u.get_fake_data n src = .ok ((x, y), s) → x.length = y.length) ∧
    (∀ (u : GanUtils α) n src x y s,
      u.get_sampled_data n src = .ok ((x, y), s) → x.length = y.length) ∧
    (∀ (u : GanUtils α) n_fake n_real src x y s,
      u.get_combined_dataset n_fake n_real src = .ok ((x, y), s) → x.length = y.length) ∧
    (∀ (u : GanUtils α) src x y s,
      u.get_equal_combined_dataset src = .ok ((x, y), s) → x.length = y.length) :=
  ⟨fun u nOpt src x y s h => latent_dataset_len_eq u nOpt src x y s h,
   fun u n src x y s h => fake_data_len_eq u n src x y s h,
   fun u n src x y s h => sampled_data_len_eq u n src x y s h,
   fun u nf nr src x y s h => combined_len_eq u nf nr src x y s h,
   fun u src x y s h =>
     combined_len_eq u (Int.tdiv u.batch_size 2) (Int.tdiv u.batch_size 2) src x y s h⟩

/-- C9: in `combinedBatch` the fake batch is computed strictly before the
real batch, so the shared random source is consumed first by the
`n_fake × latent_length` normal draws (stream positions
`pos .. pos + n_fake * latent_length`) and then by the `n_real` uniform
index draws (the following `n_real` positions); and for a fixed random
stream and generator, two calls with the same arguments produce identical
outputs. -/
theorem C9_random_consumption (u : GanUtils α) (n_fake n_real : Int) (src : RandomSource)
    (hf : 0 ≤ n_fake) (hr : 0 ≤ n_real) (hll : 0 ≤ u.latent_length)
    (hsz : u.dataset_size = u.dataset.length) (hne : u.dataset ≠ []) :
    (∀ src' : RandomSource, (∀ i, src'.normals i = src.normals i) →
      (∀ i, src'.raws i = src.raws i) → src'.pos = src.pos →
      u.get_combined_dataset n_fake n_real src' =
        u.get_combined_dataset n_fake n_real src) ∧
    ∃ x_real src₂,
      fancyIndex u.dataset
        (choiceDraws { src with pos := src.pos + n_fake.toNat * u.latent_length.toNat }
          u.dataset_size n_real.toNat) = some x_real ∧
      u.get_combined_dataset n_fake n_real src = .ok
        ((x_real ++ u.generator (randnMatrix src n_fake.toNat u.latent_length.toNat),
          List.replicate n_real.toNat 1 ++
            List.replicate
              (u.generator (randnMatrix src n_fake.toNat u.latent_length.toNat)).length 0),
         src₂) ∧
      src₂.normals = src.normals ∧ src₂.raws = src.raws ∧
      src₂.pos = src.pos + n_fake.toNat * u.latent_length.toNat + n_real.toNat := by
  constructor
  · intro src' hnorm hraws hpos'
    have hss : src' = src := by
      obtain ⟨f, g, p⟩ := src'
      obtain ⟨f0, g0, p0⟩ := src
      simp only at hnorm hraws hpos'
      rw [funext hnorm, funext hraws, hpos']
    rw [hss]
  · obtain ⟨x_real, hx, hlen, hmem, heq⟩ :=
      get_combined_dataset_eq u n_fake n_real src hf hr hll hsz hne
    exact ⟨x_real, _, hx, heq, rfl, rfl, rfl⟩

/-- C10: for every non-empty rectangular matrix of predictions with `m > 0`
columns, `discretize_predictions` returns a vector of one index per row,
the `i`-th entry being the index of the first maximum of row `i` (ties
resolved to the smallest index). -/
theorem C10_discretize (predictions : List (List Rat)) (m : Nat)
    (hne : predictions ≠ []) (hm : 0 < m)
    (hrect : ∀ row ∈ predictions, row.length = m) :
    ∃ out, discretize_predictions predictions = some out ∧
      out.length = predictions.length ∧
      ∀ i, i < predictions.length →
        isFirstArgmax (predictions.getD i []) (out.getD i 0) := by
  have hrow : ∀ row ∈ predictions, row ≠ [] := by
    intro row hr hnil
    have hlen := hrect row hr
    rw [hnil] at hlen
    simp only [List.length_nil] at hlen
    omega
  exact discretize_spec_aux predictions hrow

/-- C3 counterexample: constructing with `latent_length = -1`,
`batch_size = 0` and `dataset = []` succeeds (no `InvalidConfiguration`
error is raised); `dataset_size` is simply set to `0`. -/
theorem C3_counterexample :
    GanUtils.initE (-1) 0 ([] : List (List Rat)) id =
      .ok (GanUtils.init (-1) 0 [] id) ∧
    (GanUtils.init (-1) 0 ([] : List (List Rat)) id).dataset_size = 0 ∧
    GanUtils.initE (-1) 0 ([] : List (List Rat)) id ≠
      .error PyError.invalidConfiguration :=
  ⟨rfl, rfl, fun h => Except.noConfusion h⟩

/-- C3 amended: the constructor performs no validation and never raises:
every `latent_length`, `batch_size` and `dataset` (the empty dataset
included) is accepted, and `dataset_size` is set to `len(dataset)`. -/
theorem C3_init_no_validation (α : Type) (latent_length batch_size : Int)
    (dataset : List α) (generator : List (List Rat) → List α) :
    GanUtils.initE latent_length batch_size dataset generator =
      .ok (GanUtils.init latent_length batch_size dataset generator) ∧
    (GanUtils.init latent_length batch_size dataset generator).dataset_size =
      dataset.length :=
  ⟨rfl, rfl⟩

/-- C4 counterexample: at `n = 0` (which satisfies `n ≤ 0`) neither call
raises: `sampleLatentVectors(0)` returns an empty array and `realBatch(0)`
returns an empty batch. -/
theorem C4_counterexample :
    (0 : Int) ≤ 0 ∧
    sampleUtils.get_latent_examples 0 zeroSrc = .ok ([], zeroSrc) ∧
    sampleUtils.get_sampled_data 0 zeroSrc = .ok (([], []), zeroSrc) :=
  ⟨le_refl 0, rfl, rfl⟩

/-- C4 amended: `sampleLatentVectors(n)` and `realBatch(n)` raise a numpy
`ValueError` (negative dimensions) for `n < 0`, but for `n = 0` both
succeed, returning an empty array resp. an empty batch; no
`InvalidArgument` error exists. -/
theorem C4_nonpositive_behaviour (u : GanUtils α) (src : RandomSource) (n : Int)
    (hn : n < 0) (hll : 0 ≤ u.latent_length) :
    u.get_latent_examples n src = .error .negativeDimensions ∧
    u.get_sampled_data n src = .error .negativeDimensions ∧
    u.get_latent_examples 0 src = .ok ([], src) ∧
    u.get_sampled_data 0 src = .ok (([], []), src) := by
  refine ⟨?_, ?_, ?_, ?_⟩
  · unfold GanUtils.get_latent_examples np_randn
    rw [if_pos (Or.inl hn)]
  · have h1 : np_choice (u.dataset_size : Int) n src = .error .negativeDimensions := by
      unfold np_choice
      rw [if_pos hn]
    unfold GanUtils.get_sampled_data
    rw [h1]
    rfl
  · rw [show u.get_latent_examples 0 src = np_randn 0 u.latent_length src from rfl,
      np_randn_eq 0 u.latent_length src (le_refl 0) hll]
    simp [randnMatrix]
  · have h2 : np_choice (u.dataset_size : Int) 0 src = .ok ([], src) := by
      unfold np_choice
      rw [if_neg (by omega), if_neg (by omega)]
      simp [choiceDraws]
    unfold GanUtils.get_sampled_data
    rw [h2]
    rfl

/-- Witness for C1 at the concrete scenario, `n_fake = n_real = 1`. -/
theorem C1_combined_batch_witness :
    (0 : Int) < 1 ∧ sampleUtils.dataset ≠ [] ∧
    ∃ latent x_fake x_real src',
      latent.length = (1 : Int).toNat ∧ x_fake = sampleUtils.generator latent ∧
      x_real.length = (1 : Int).toNat ∧ (∀ a ∈ x_real, a ∈ sampleUtils.dataset) ∧
      sampleUtils.get_combined_dataset 1 1 zeroSrc = .ok
        ((x_real ++ x_fake,
          List.replicate (1 : Int).toNat 1 ++ List.replicate x_fake.length 0), src') ∧
      (x_real ++ x_fake).length = (1 : Int).toNat + x_fake.length :=
  ⟨by decide, by decide,
    C1_combined_batch sampleUtils 1 1 zeroSrc (by decide) (by decide) (by decide) rfl
      (by decide)⟩

/-- Witness for C2 at the concrete scenario with odd `batch_size = 11`:
the returned batch has length `10`, not `11`. -/
theorem C2_equal_combined_batch_witness :
    (0 : Int) < sampleUtils11.batch_size ∧
    2 * (Int.tdiv sampleUtils11.batch_size 2).toNat = 10 ∧
    (sampleUtils11.get_equal_combined_dataset zeroSrc =
       sampleUtils11.get_combined_dataset (Int.tdiv sampleUtils11.batch_size 2)
         (Int.tdiv sampleUtils11.batch_size 2) zeroSrc ∧
     ∃ x y src', sampleUtils11.get_equal_combined_dataset zeroSrc = .ok ((x, y), src') ∧
       x.length = 2 * (Int.tdiv sampleUtils11.batch_size 2).toNat) :=
  ⟨by decide, by decide,
    C2_equal_combined_batch sampleUtils11 zeroSrc (by decide) (by decide) rfl (by decide)
      (fun _ => rfl)⟩

/-- Witness for C4 (amended) at `n = -1`. -/
theorem C4_nonpositive_behaviour_witness :
    (-1 : Int) < 0 ∧
    (sampleUtils.get_latent_examples (-1) zeroSrc = .error .negativeDimensions ∧
     sampleUtils.get_sampled_data (-1) zeroSrc = .error .negativeDimensions ∧
     sampleUtils.get_latent_examples 0 zeroSrc = .ok ([], zeroSrc) ∧
     sampleUtils.get_sampled_data 0 zeroSrc = .ok (([], []), zeroSrc)) :=
  ⟨by decide, C4_nonpositive_behaviour sampleUtils zeroSrc (-1) (by decide) (by decide)⟩

/-- Witness for C5 at the concrete scenario, `n = 2`. -/
theorem C5_real_batch_witness :
    (0 : Int) < 2 ∧ sampleUtils.dataset ≠ [] ∧
    ((∀ i ∈ choiceDraws zeroSrc sampleUtils.dataset_size (2 : Int).toNat,
        i < sampleUtils.dataset_size) ∧
     ∃ x src', fancyIndex sampleUtils.dataset
         (choiceDraws zeroSrc sampleUtils.dataset_size (2 : Int).toNat) = some x ∧
       sampleUtils.get_sampled_data 2 zeroSrc =
         .ok ((x, List.replicate (2 : Int).toNat 1), src') ∧
       x.length = (2 : Int).toNat ∧ ∀ a ∈ x, a ∈ sampleUtils.dataset) :=
  ⟨by decide, by decide, C5_real_batch sampleUtils 2 zeroSrc (by decide) rfl (by decide)⟩

/-- Witness for C6 at the concrete scenario, `n = 2`. -/
theorem C6_fake_batch_witness :
    (0 : Int) < 2 ∧
    ∃ latent src',
      sampleUtils.get_latent_examples 2 zeroSrc = .ok (latent, src') ∧
      latent.length = (2 : Int).toNat ∧
      sampleUtils.get_fake_data 2 zeroSrc = .ok
        ((sampleUtils.generator latent,
          List.replicate (sampleUtils.generator latent).length 0), src') :=
  ⟨by decide, C6_fake_batch sampleUtils 2 zeroSrc (by decide) (by decide)⟩

/-- Witness for C7 at the concrete scenario, `n = 3`. -/
theorem C7_latent_shapes_witness :
    (0 : Int) < 3 ∧
    ((∃ x src', sampleUtils.get_latent_examples 3 zeroSrc = .ok (x, src') ∧
        x.length = (3 : Int).toNat ∧
        ∀ row ∈ x, row.length = sampleUtils.latent_length.toNat) ∧
     (∃ x src', sampleUtils.get_latent_dataset (some 3) zeroSrc =
        .ok ((x, List.replicate (3 : Int).toNat 1), src')) ∧
     sampleUtils.get_latent_dataset none zeroSrc =
       sampleUtils.get_latent_dataset (some sampleUtils.batch_size) zeroSrc) :=
  ⟨by decide, C7_latent_shapes sampleUtils 3 zeroSrc (by decide) (by decide)⟩

/-- Witness for C8: each of the five operations evaluated at a concrete
input, with the resulting sample and label lists and their equal lengths. -/
theorem C8_batch_lengths_witness :
    (sampleUtils.get_latent_dataset (some 1) zeroSrc =
        .ok (([[0, 0]], [1]), { zeroSrc with pos := 2 }) ∧
      ([[0, 0]] : List (List Rat)).length = ([1] : List Rat).length) ∧
    (sampleUtils.get_fake_data 1 zeroSrc =
        .ok (([[0, 0]], [0]), { zeroSrc with pos := 2 }) ∧
      ([[0, 0]] : List (List Rat)).length = ([0] : List Rat).length) ∧
    (sampleUtils.get_sampled_data 2 zeroSrc =
        .ok (([[10], [20]], [1, 1]), { zeroSrc with pos := 2 }) ∧
      ([[10], [20]] : List (List Rat)).length = ([1, 1] : List Rat).length) ∧
    (sampleUtils.get_combined_dataset 1 1 zeroSrc =
        .ok (([[30], [0, 0]], [1, 0]), { zeroSrc with pos := 3 }) ∧
      ([[30], [0, 0]] : List (List Rat)).length = ([1, 0] : List Rat).length) ∧
    (sampleUtils.get_equal_combined_dataset zeroSrc =
        .ok (([[10], [20], [0, 0], [0, 0]], [1, 1, 0, 0]), { zeroSrc with pos := 6 }) ∧
      ([[10], [20], [0, 0], [0, 0]] : List (List Rat)).length =
        ([1, 1, 0, 0] : List Rat).length) :=
  ⟨⟨rfl, (C8_batch_lengths (List Rat)).1 sampleUtils (some 1) zeroSrc [[0, 0]] [1]
      { zeroSrc with pos := 2 } rfl⟩,
   ⟨rfl, (C8_batch_lengths (List Rat)).2.1 sampleUtils 1 zeroSrc [[0, 0]] [0]
      { zeroSrc with pos := 2 } rfl⟩,
   ⟨rfl, (C8_batch_lengths (List Rat)).2.2.1 sampleUtils 2 zeroSrc [[10], [20]] [1, 1]
      { zeroSrc with pos := 2 } rfl⟩,
   ⟨rfl, (C8_batch_lengths (List Rat)).2.2.2.1 sampleUtils 1 1 zeroSrc [[30], [0, 0]]
      [1, 0] { zeroSrc with pos := 3 } rfl⟩,
   ⟨rfl, (C8_batch_lengths (List Rat)).2.2.2.2 sampleUtils zeroSrc
      [[10], [20], [0, 0], [0, 0]] [1, 1, 0, 0] { zeroSrc with pos := 6 } rfl⟩⟩

/-- Witness for C9 at the concrete scenario, `n_fake = 1`, `n_real = 2`. -/
theorem C9_random_consumption_witness :
    (0 : Int) ≤ 1 ∧ (0 : Int) ≤ 2 ∧
    ((∀ src' : RandomSource, (∀ i, src'.normals i = zeroSrc.normals i) →
        (∀ i, src'.raws i = zeroSrc.raws i) → src'.pos = zeroSrc.pos →
        sampleUtils.get_combined_dataset 1 2 src' =
          sampleUtils.get_combined_dataset 1 2 zeroSrc) ∧
     ∃ x_real src₂,
       fancyIndex sampleUtils.dataset
         (choiceDraws { zeroSrc with pos :=
             zeroSrc.pos + (1 : Int).toNat * sampleUtils.latent_length.toNat }
           sampleUtils.dataset_size (2 : Int).toNat) = some x_real ∧
       sampleUtils.get_combined_dataset 1 2 zeroSrc = .ok
         ((x_real ++ sampleUtils.generator
             (randnMatrix zeroSrc (1 : Int).toNat sampleUtils.latent_length.toNat),
           List.replicate (2 : Int).toNat 1 ++
             List.replicate (sampleUtils.generator
               (randnMatrix zeroSrc (1 : Int).toNat
                 sampleUtils.latent_length.toNat)).length 0), src₂) ∧
       src₂.normals = zeroSrc.normals ∧ src₂.raws = zeroSrc.raws ∧
       src₂.pos = zeroSrc.pos + (1 : Int).toNat * sampleUtils.latent_length.toNat +
         (2 : Int).toNat) :=
  ⟨by decide, by decide,
    C9_random_consumption sampleUtils 1 2 zeroSrc (by decide) (by decide) (by decide) rfl
      (by decide)⟩

/-- Witness for C10 at the example of the function's docstring. -/
theorem C10_discretize_witness :
    ([[0, 0, 0, 1], [1, 0, 0, 0]] : List (List Rat)) ≠ [] ∧
    discretize_predictions [[0, 0, 0, 1], [1, 0, 0, 0]] = some [3, 0] ∧
    ∃ out, discretize_predictions [[0, 0, 0, 1], [1, 0, 0, 0]] = some out ∧
      out.length = ([[0, 0, 0, 1], [1, 0, 0, 0]] : List (List Rat)).length ∧
      ∀ i, i < ([[0, 0, 0, 1], [1, 0, 0, 0]] : List (List Rat)).length →
        isFirstArgmax (([[0, 0, 0, 1], [1, 0, 0, 0]] : List (List Rat)).getD i [])
          (out.getD i 0) :=
  ⟨by decide, by decide,
    C10_discretize [[0, 0, 0, 1], [1, 0, 0, 0]] 4 (by decide) (by decide) (by decide)⟩
